import Mathlib

/-!
Formalisation of the architecture layering validator of the CardScroller
repository (`src/check_layer_violations.py`).

The Python module hardcodes two tables — `SERVICE_LAYERS`, a dict from
service name to integer layer, and `DEPENDENCIES`, a dict from service
name to the list of services it depends on — and `check_dependencies`
walks every declared edge, collecting a violation record whenever a
service depends on a service in a strictly higher layer.  Python dicts
iterate in insertion order, so both tables are embedded as association
lists in declaration order.  The two warning `print` statements inside
`check_dependencies` are modelled as an ordered trace of `Warning`
values returned alongside the violation list; `main` derives the exit
code from the number of violations alone (lines 201 and 203–205).

`check_dependencies` reads the two tables as globals; the embedding
takes them as parameters so that properties quantified over arbitrary
models can be stated, and instantiates them with the hardcoded tables
where the concrete run is concerned.
-/

namespace CardScroller

/-- A violation record, as built on lines 166–172 of the source:
service, its layer, the dependency, its layer, and the rendered
direction string. -/
structure Violation where
  service : String
  service_layer : Nat
  dependency : String
  dependency_layer : Nat
  violation : String
deriving DecidableEq, Repr

/-- The two warning `print` sites of `check_dependencies`, as structured
values: line 149 warns about a source service missing from the layer
map, line 159 about a dependency missing from it (the printed text names
only the dependency). -/
inductive Warning where
  | unknownSource (name : String)
  | unknownDependency (dep : String)
deriving DecidableEq, Repr

/-- The layer table: association list in declaration order, modelling a
Python dict from service name to layer number. -/
abbrev LayerMap := List (String × Nat)

/-- The dependency table: association list in declaration order,
modelling a Python dict from service name to its dependency list. -/
abbrev DepMap := List (String × List String)

/-- The hardcoded foundation list of line 157:
`dep in ['eventBus', 'stateManager']`. -/
def foundationNodes : List String := ["eventBus", "stateManager"]

/-- The violation dict literal of lines 166–172, including the rendered
direction string of line 171. -/
def mkViolation (s : String) (sL : Nat) (d : String) (dL : Nat) : Violation :=
  ⟨s, sL, d, dL, "第" ++ toString sL ++ "层 → 第" ++ toString dL ++ "层"⟩

/-- Body of the inner loop (lines 154–172): classify one dependency of a
service whose layer is already known.  The foundation test of line 157
sits inside the `dep not in SERVICE_LAYERS` branch, exactly as in the
source. -/
def checkDep (layers : LayerMap) (service : String) (service_layer : Nat)
    (dep : String) : List Violation × List Warning :=
  match layers.lookup dep with
  | none =>
      if dep ∈ foundationNodes then ([], [])
      else ([], [Warning.unknownDependency dep])
  | some dep_layer =>
      if service_layer < dep_layer then
        ([mkViolation service service_layer dep dep_layer], [])
      else ([], [])

/-- The inner `for dep in deps` loop, accumulating violations and the
warning trace in declaration order. -/
def checkDeps (layers : LayerMap) (service : String) (service_layer : Nat) :
    List String → List Violation × List Warning
  | [] => ([], [])
  | dep :: rest =>
      let r := checkDep layers service service_layer dep
      let rs := checkDeps layers service service_layer rest
      (r.1 ++ rs.1, r.2 ++ rs.2)

/-- One iteration of the outer loop (lines 147–172): a source service
absent from the layer map yields one warning and no violations (lines
148–150); otherwise its layer is looked up (line 152) and its
dependencies are classified in declared order. -/
def checkService (layers : LayerMap) (service : String) (deps : List String) :
    List Violation × List Warning :=
  match layers.lookup service with
  | none => ([], [Warning.unknownSource service])
  | some service_layer => checkDeps layers service service_layer deps

/-- `check_dependencies` (lines 143–174), generalised over the two
tables it reads: walks the dependency table in declaration order and
returns the collected violation list together with the ordered warning
trace. -/
def check_dependencies (layers : LayerMap) : DepMap → List Violation × List Warning
  | [] => ([], [])
  | (service, deps) :: rest =>
      let r := checkService layers service deps
      let rs := check_dependencies layers rest
      (r.1 ++ rs.1, r.2 ++ rs.2)

/-- Line 201: `main` returns `len(violations)`. -/
def main_result (layers : LayerMap) (deps : DepMap) : Nat :=
  (check_dependencies layers deps).1.length

/-- Line 205: `exit(0 if violations_count == 0 else 1)`, applied to the
count returned by `main`. -/
def derive_exit (violations_count : Nat) : Nat :=
  if violations_count = 0 then 0 else 1

/-- The process exit status of a run on the given tables (lines
203–205). -/
def exit_code (layers : LayerMap) (deps : DepMap) : Nat :=
  derive_exit (main_result layers deps)

/-- The `SERVICE_LAYERS` table of lines 8–80. -/
def SERVICE_LAYERS : LayerMap := [
  ("eventBus", 2),
  ("stateManager", 2),
  ("scrollStrategyManager", 3),
  ("entryAnimationStrategyManager", 3),
  ("fileProcessStrategyManager", 3),
  ("transitionFragmentPool", 3),
  ("canvasRenderService", 5),
  ("viewportCalculatorService", 5),
  ("ppiExtractorService", 5),
  ("keyboardService", 6),
  ("fileSaveService", 6),
  ("messageService", 6),
  ("loadingService", 6),
  ("positionSliderService", 6),
  ("customSelectFactory", 7),
  ("cardBoundaryEditorFactory", 7),
  ("colorPickerFactory", 7),
  ("boundaryEditorManagerFactory", 7),
  ("entryAnimationHelpDialogsFactory", 7),
  ("previewManagerFactory", 10),
  ("validationService", 9),
  ("stateWatcherService", 9),
  ("errorDisplayService", 9),
  ("dialogService", 9),
  ("tooltipService", 9),
  ("imageProcessingService", 10),
  ("scrollAnimationService", 10),
  ("entryAnimationService", 10),
  ("performanceMonitorService", 10),
  ("durationSequenceService", 10),
  ("loopConfigurationService", 10),
  ("positionPreviewService", 10),
  ("imageService", 11),
  ("configService", 11),
  ("playbackCoordinatorService", 11),
  ("scrollService", 11),
  ("businessOrchestrationService", 11),
  ("aboutModalService", 12),
  ("advancedLoopService", 12),
  ("imageInfoModalService", 12),
  ("colorPickerModalService", 12),
  ("positionSelectorService", 12),
  ("fileOperationUIService", 12),
  ("parameterControlUIService", 12),
  ("playbackControlUIService", 12),
  ("progressBarService", 12),
  ("sidebarService", 12),
  ("displayCoordinatorService", 12),
  ("PlaybackUIDisablerService", 12),
  ("bubbleMenuService", 12),
  ("entryAnimationConfigPage", 12),
  ("performanceReportPage", 12)]

/-- The `DEPENDENCIES` table of lines 83–141. -/
def DEPENDENCIES : DepMap := [
  ("scrollStrategyManager", []),
  ("fileProcessStrategyManager", []),
  ("entryAnimationStrategyManager", []),
  ("transitionFragmentPool", []),
  ("customSelectFactory", ["stateManager", "keyboardService"]),
  ("fileSaveService", []),
  ("keyboardService", []),
  ("ppiExtractorService", []),
  ("canvasRenderService", []),
  ("viewportCalculatorService", []),
  ("imageProcessingService", ["stateManager"]),
  ("loopConfigurationService", ["stateManager", "eventBus"]),
  ("durationSequenceService", ["stateManager", "eventBus"]),
  ("performanceMonitorService", ["stateManager", "eventBus"]),
  ("scrollAnimationService", ["eventBus", "stateManager", "scrollStrategyManager",
    "performanceMonitorService"]),
  ("entryAnimationService", ["eventBus", "stateManager", "entryAnimationStrategyManager",
    "canvasRenderService", "validationService", "performanceMonitorService"]),
  ("imageService", ["eventBus", "stateManager", "fileProcessStrategyManager",
    "imageProcessingService"]),
  ("playbackCoordinatorService", ["eventBus", "stateManager", "entryAnimationService",
    "scrollAnimationService", "durationSequenceService", "viewportCalculatorService",
    "canvasRenderService", "performanceMonitorService"]),
  ("scrollService", ["eventBus", "stateManager", "playbackCoordinatorService"]),
  ("configService", ["eventBus", "stateManager", "imageService", "scrollService",
    "fileSaveService", "ppiExtractorService", "fileProcessStrategyManager"]),
  ("loadingService", ["eventBus"]),
  ("dialogService", ["keyboardService", "stateManager"]),
  ("messageService", ["stateManager"]),
  ("validationService", ["stateManager", "fileProcessStrategyManager", "scrollStrategyManager"]),
  ("errorDisplayService", ["eventBus", "dialogService", "messageService"]),
  ("stateWatcherService", ["stateManager", "eventBus"]),
  ("businessOrchestrationService", ["eventBus", "stateManager", "imageService",
    "scrollService", "validationService"]),
  ("tooltipService", []),
  ("progressBarService", ["eventBus", "stateManager", "stateWatcherService"]),
  ("positionPreviewService", ["stateManager"]),
  ("positionSliderService", ["stateManager"]),
  ("positionSelectorService", ["eventBus", "validationService", "keyboardService",
    "stateManager", "positionPreviewService", "positionSliderService", "stateWatcherService"]),
  ("advancedLoopService", ["keyboardService", "stateManager", "loopConfigurationService",
    "durationSequenceService", "displayCoordinatorService", "stateWatcherService",
    "customSelectFactory"]),
  ("aboutModalService", ["keyboardService", "stateManager", "eventBus"]),
  ("imageInfoModalService", ["ppiExtractorService", "eventBus", "keyboardService",
    "stateManager"]),
  ("colorPickerFactory", ["stateManager", "keyboardService", "eventBus"]),
  ("colorPickerModalService", ["keyboardService", "eventBus", "stateManager",
    "validationService", "colorPickerFactory"]),
  ("sidebarService", ["eventBus", "keyboardService", "stateManager", "stateWatcherService"]),
  ("fileOperationUIService", ["eventBus", "stateManager", "fileProcessStrategyManager"]),
  ("playbackControlUIService", ["eventBus", "stateManager", "scrollService",
    "validationService", "keyboardService"]),
  ("parameterControlUIService", ["eventBus", "stateManager", "stateWatcherService",
    "scrollStrategyManager", "customSelectFactory", "colorPickerModalService"]),
  ("PlaybackUIDisablerService", ["stateManager", "stateWatcherService"]),
  ("displayCoordinatorService", ["eventBus", "stateManager", "stateWatcherService",
    "canvasRenderService"]),
  ("cardBoundaryEditorFactory", ["stateManager", "keyboardService",
    "viewportCalculatorService"]),
  ("previewManagerFactory", ["entryAnimationService", "viewportCalculatorService"]),
  ("boundaryEditorManagerFactory", ["cardBoundaryEditorFactory"]),
  ("entryAnimationHelpDialogsFactory", ["viewportCalculatorService"]),
  ("entryAnimationConfigPage", ["stateManager", "customSelectFactory", "eventBus",
    "validationService", "previewManagerFactory", "boundaryEditorManagerFactory",
    "entryAnimationHelpDialogsFactory"]),
  ("performanceReportPage", ["stateManager", "eventBus", "validationService",
    "ppiExtractorService", "transitionFragmentPool"]),
  ("bubbleMenuService", ["eventBus", "stateManager", "keyboardService"])]

/-! ### Structural lemmas about the loops -/

theorem checkDeps_cons (layers : LayerMap) (s : String) (sL : Nat) (d : String)
    (rest : List String) :
    checkDeps layers s sL (d :: rest) =
      ((checkDep layers s sL d).1 ++ (checkDeps layers s sL rest).1,
       (checkDep layers s sL d).2 ++ (checkDeps layers s sL rest).2) := rfl

theorem check_dependencies_cons (layers : LayerMap) (s : String) (ds : List String)
    (rest : DepMap) :
    check_dependencies layers ((s, ds) :: rest) =
      ((checkService layers s ds).1 ++ (check_dependencies layers rest).1,
       (checkService layers s ds).2 ++ (check_dependencies layers rest).2) := rfl

theorem checkDeps_append (layers : LayerMap) (s : String) (sL : Nat)
    (l₁ l₂ : List String) :
    checkDeps layers s sL (l₁ ++ l₂) =
      ((checkDeps layers s sL l₁).1 ++ (checkDeps layers s sL l₂).1,
       (checkDeps layers s sL l₁).2 ++ (checkDeps layers s sL l₂).2) := by
  induction l₁ with
  | nil => simp [checkDeps]
  | cons d rest ih => simp [checkDeps_cons, ih, List.append_assoc]

theorem check_dependencies_append (layers : LayerMap) (D₁ D₂ : DepMap) :
    check_dependencies layers (D₁ ++ D₂) =
      ((check_dependencies layers D₁).1 ++ (check_dependencies layers D₂).1,
       (check_dependencies layers D₁).2 ++ (check_dependencies layers D₂).2) := by
  induction D₁ with
  | nil => simp [check_dependencies]
  | cons e rest ih =>
      obtain ⟨s, ds⟩ := e
      simp [check_dependencies_cons, ih, List.append_assoc]

theorem checkDeps_eq_flatten (layers : LayerMap) (s : String) (sL : Nat) :
    ∀ ds : List String,
      checkDeps layers s sL ds =
        ((ds.map fun d => (checkDep layers s sL d).1).flatten,
         (ds.map fun d => (checkDep layers s sL d).2).flatten)
  | [] => rfl
  | d :: rest => by simp [checkDeps_cons, checkDeps_eq_flatten layers s sL rest]

theorem check_dependencies_eq_flatten (layers : LayerMap) :
    ∀ D : DepMap,
      check_dependencies layers D =
        ((D.map fun e => (checkService layers e.1 e.2).1).flatten,
         (D.map fun e => (checkService layers e.1 e.2).2).flatten)
  | [] => rfl
  | (s, ds) :: rest => by
      simp [check_dependencies_cons, check_dependencies_eq_flatten layers rest]

/-! ### Case equations for the two lookup branches -/

theorem checkDep_none_foundation (layers : LayerMap) (s : String) (sL : Nat) (d : String)
    (h : layers.lookup d = none) (hf : d ∈ foundationNodes) :
    checkDep layers s sL d = ([], []) := by
  unfold checkDep; rw [h]; simp [hf]

theorem checkDep_none_unknown (layers : LayerMap) (s : String) (sL : Nat) (d : String)
    (h : layers.lookup d = none) (hf : d ∉ foundationNodes) :
    checkDep layers s sL d = ([], [Warning.unknownDependency d]) := by
  unfold checkDep; rw [h]; simp [hf]

theorem checkDep_some_lt (layers : LayerMap) (s : String) (sL : Nat) (d : String) (dL : Nat)
    (h : layers.lookup d = some dL) (hlt : sL < dL) :
    checkDep layers s sL d = ([mkViolation s sL d dL], []) := by
  unfold checkDep; rw [h]; simp [hlt]

theorem checkDep_some_ge (layers : LayerMap) (s : String) (sL : Nat) (d : String) (dL : Nat)
    (h : layers.lookup d = some dL) (hge : ¬ sL < dL) :
    checkDep layers s sL d = ([], []) := by
  unfold checkDep; rw [h]; simp [hge]

theorem checkService_none (layers : LayerMap) (s : String) (ds : List String)
    (h : layers.lookup s = none) :
    checkService layers s ds = ([], [Warning.unknownSource s]) := by
  unfold checkService; rw [h]

theorem checkService_some (layers : LayerMap) (s : String) (ds : List String) (sL : Nat)
    (h : layers.lookup s = some sL) :
    checkService layers s ds = checkDeps layers s sL ds := by
  unfold checkService; rw [h]

/-! ### Soundness: what emitted records certify -/

theorem checkDep_mem_sound (layers : LayerMap) (s : String) (sL : Nat) (d : String)
    (v : Violation) (hv : v ∈ (checkDep layers s sL d).1) :
    v.service = s ∧ v.service_layer = sL ∧
      layers.lookup v.dependency = some v.dependency_layer ∧ sL < v.dependency_layer := by
  cases h : layers.lookup d with
  | none =>
      by_cases hf : d ∈ foundationNodes
      · rw [checkDep_none_foundation layers s sL d h hf] at hv; simp at hv
      · rw [checkDep_none_unknown layers s sL d h hf] at hv; simp at hv
  | some dL =>
      by_cases hlt : sL < dL
      · rw [checkDep_some_lt layers s sL d dL h hlt] at hv
        simp only [List.mem_singleton] at hv
        subst hv
        exact ⟨rfl, rfl, h, hlt⟩
      · rw [checkDep_some_ge layers s sL d dL h hlt] at hv; simp at hv

theorem checkDep_warning_sound (layers : LayerMap) (s : String) (sL : Nat) (d : String)
    (w : Warning) (hw : w ∈ (checkDep layers s sL d).2) :
    w = Warning.unknownDependency d ∧ layers.lookup d = none ∧ d ∉ foundationNodes := by
  cases h : layers.lookup d with
  | none =>
      by_cases hf : d ∈ foundationNodes
      · rw [checkDep_none_foundation layers s sL d h hf] at hw; simp at hw
      · rw [checkDep_none_unknown layers s sL d h hf] at hw
        simp only [List.mem_singleton] at hw
        exact ⟨hw, rfl, hf⟩
  | some dL =>
      by_cases hlt : sL < dL
      · rw [checkDep_some_lt layers s sL d dL h hlt] at hw; simp at hw
      · rw [checkDep_some_ge layers s sL d dL h hlt] at hw; simp at hw

theorem checkDeps_mem_sound (layers : LayerMap) (s : String) (sL : Nat) :
    ∀ (ds : List String) (v : Violation), v ∈ (checkDeps layers s sL ds).1 →
      v.service = s ∧ v.service_layer = sL ∧
        layers.lookup v.dependency = some v.dependency_layer ∧ sL < v.dependency_layer
  | [], v, hv => by simp [checkDeps] at hv
  | d :: rest, v, hv => by
      rw [checkDeps_cons] at hv
      rcases List.mem_append.mp hv with h | h
      · exact checkDep_mem_sound layers s sL d v h
      · exact checkDeps_mem_sound layers s sL rest v h

theorem check_dependencies_mem_sound (layers : LayerMap) :
    ∀ (D : DepMap) (v : Violation), v ∈ (check_dependencies layers D).1 →
      layers.lookup v.service = some v.service_layer ∧
        layers.lookup v.dependency = some v.dependency_layer ∧
        v.service_layer < v.dependency_layer
  | [], v, hv => by simp [check_dependencies] at hv
  | (s, ds) :: rest, v, hv => by
      rw [check_dependencies_cons] at hv
      rcases List.mem_append.mp hv with h | h
      · cases hs : layers.lookup s with
        | none => rw [checkService_none layers s ds hs] at h; simp at h
        | some sL =>
            rw [checkService_some layers s ds sL hs] at h
            obtain ⟨h1, h2, h3, h4⟩ := checkDeps_mem_sound layers s sL ds v h
            rw [h1, h2]
            exact ⟨hs, h3, h4⟩
      · exact check_dependencies_mem_sound layers rest v h

theorem checkDeps_warning_sound (layers : LayerMap) (s : String) (sL : Nat) :
    ∀ (ds : List String) (w : Warning), w ∈ (checkDeps layers s sL ds).2 →
      ∃ d, w = Warning.unknownDependency d ∧ layers.lookup d = none ∧ d ∉ foundationNodes
  | [], w, hw => by simp [checkDeps] at hw
  | d :: rest, w, hw => by
      rw [checkDeps_cons] at hw
      rcases List.mem_append.mp hw with h | h
      · obtain ⟨h1, h2, h3⟩ := checkDep_warning_sound layers s sL d w h
        exact ⟨d, h1, h2, h3⟩
      · exact checkDeps_warning_sound layers s sL rest w h

theorem check_dependencies_warning_sound (layers : LayerMap) :
    ∀ (D : DepMap) (w : Warning), w ∈ (check_dependencies layers D).2 →
      (∃ s, w = Warning.unknownSource s ∧ layers.lookup s = none) ∨
      (∃ d, w = Warning.unknownDependency d ∧ layers.lookup d = none ∧ d ∉ foundationNodes)
  | [], w, hw => by simp [check_dependencies] at hw
  | (s, ds) :: rest, w, hw => by
      rw [check_dependencies_cons] at hw
      rcases List.mem_append.mp hw with h | h
      · cases hs : layers.lookup s with
        | none =>
            rw [checkService_none layers s ds hs] at h
            simp only [List.mem_singleton] at h
            exact Or.inl ⟨s, h, hs⟩
        | some sL =>
            rw [checkService_some layers s ds sL hs] at h
            obtain ⟨d, h1, h2, h3⟩ := checkDeps_warning_sound layers s sL ds w h
            exact Or.inr ⟨d, h1, h2, h3⟩
      · exact check_dependencies_warning_sound layers rest w h

/-! ### Completeness: edges reach the output -/

theorem checkDeps_mem_of_mem (layers : LayerMap) (s : String) (sL : Nat) (d : String) :
    ∀ ds : List String, d ∈ ds → ∀ v : Violation,
      v ∈ (checkDep layers s sL d).1 → v ∈ (checkDeps layers s sL ds).1
  | d' :: rest, hd, v, hv => by
      rw [checkDeps_cons]
      rcases List.mem_cons.mp hd with h | h
      · subst h; exact List.mem_append_left _ hv
      · exact List.mem_append_right _ (checkDeps_mem_of_mem layers s sL d rest h v hv)

theorem check_dependencies_mem_of_mem (layers : LayerMap) (s : String) (ds : List String) :
    ∀ D : DepMap, (s, ds) ∈ D → ∀ v : Violation,
      v ∈ (checkService layers s ds).1 → v ∈ (check_dependencies layers D).1
  | e :: rest, hmem, v, hv => by
      obtain ⟨s', ds'⟩ := e
      rw [check_dependencies_cons]
      rcases List.mem_cons.mp hmem with h | h
      · obtain ⟨h1, h2⟩ := Prod.mk.injEq .. ▸ h
        subst h1; subst h2
        exact List.mem_append_left _ hv
      · exact List.mem_append_right _
          (check_dependencies_mem_of_mem layers s ds rest h v hv)

/-! ### The claims -/

/-- Claim C1: for a source s and dependency d both present in the layer map,
with d not a foundation node, a violation for the edge (s, d) is reported
iff layer(s) < layer(d), and every reported record for that edge carries
s, layer(s), d and layer(d). -/
theorem violation_reported_iff (layers : LayerMap) (D : DepMap)
    (s d : String) (ds : List String) (sL dL : Nat)
    (hmem : (s, ds) ∈ D) (hd : d ∈ ds)
    (hs : layers.lookup s = some sL) (hld : layers.lookup d = some dL)
    (_hnf : d ∉ foundationNodes) :
    ((∃ v ∈ (check_dependencies layers D).1, v.service = s ∧ v.dependency = d) ↔ sL < dL) ∧
    (∀ v ∈ (check_dependencies layers D).1, v.service = s → v.dependency = d →
      v.service_layer = sL ∧ v.dependency_layer = dL) := by
  have sound : ∀ v ∈ (check_dependencies layers D).1, v.service = s → v.dependency = d →
      sL = v.service_layer ∧ dL = v.dependency_layer ∧
        v.service_layer < v.dependency_layer := by
    intro v hv hvs hvd
    obtain ⟨h1, h2, h3⟩ := check_dependencies_mem_sound layers D v hv
    rw [hvs, hs] at h1
    rw [hvd, hld] at h2
    exact ⟨Option.some.inj h1, Option.some.inj h2, h3⟩
  constructor
  · constructor
    · rintro ⟨v, hv, hvs, hvd⟩
      obtain ⟨h1, h2, h3⟩ := sound v hv hvs hvd
      omega
    · intro hlt
      refine ⟨mkViolation s sL d dL, ?_, rfl, rfl⟩
      refine check_dependencies_mem_of_mem layers s ds D hmem _ ?_
      rw [checkService_some layers s ds sL hs]
      refine checkDeps_mem_of_mem layers s sL d ds hd _ ?_
      rw [checkDep_some_lt layers s sL d dL hld hlt]
      exact List.mem_singleton_self _
  · intro v hv hvs hvd
    obtain ⟨h1, h2, -⟩ := sound v hv hvs hvd
    exact ⟨h1.symm, h2.symm⟩

/-- Witness for C1 at a two-service model with an upward edge. -/
theorem violation_reported_iff_witness :
    ((∃ v ∈ (check_dependencies [("A", 1), ("B", 2)] [("A", ["B"])]).1,
        v.service = "A" ∧ v.dependency = "B") ↔ (1 : Nat) < 2) ∧
    (∀ v ∈ (check_dependencies [("A", 1), ("B", 2)] [("A", ["B"])]).1,
        v.service = "A" → v.dependency = "B" →
        v.service_layer = 1 ∧ v.dependency_layer = 2) :=
  violation_reported_iff [("A", 1), ("B", 2)] [("A", ["B"])] "A" "B" ["B"] 1 2
    (by decide) (by decide) (by decide) (by decide) (by decide)

/-- Claim C2 counterexample: an edge targeting the foundation node eventBus
that is present in the layer map is reported as a violation when the
source's layer is smaller, so the foundation check is not applied before
the layer lookup. -/
theorem foundation_in_map_violation :
    (check_dependencies [("A", 1), ("eventBus", 2)] [("A", ["eventBus"])]).1 =
      [mkViolation "A" 1 "eventBus" 2] := by decide

/-- Claim C2 (amended): for an edge whose target d is a foundation node
absent from the layer map, the validator reports neither a violation
targeting d nor an unknown-dependency warning for d. -/
theorem foundation_absent_skipped (layers : LayerMap) (D : DepMap) (d : String)
    (hf : d ∈ foundationNodes) (habs : layers.lookup d = none) :
    (∀ v ∈ (check_dependencies layers D).1, v.dependency ≠ d) ∧
    Warning.unknownDependency d ∉ (check_dependencies layers D).2 := by
  constructor
  · intro v hv hvd
    obtain ⟨-, h2, -⟩ := check_dependencies_mem_sound layers D v hv
    rw [hvd, habs] at h2
    exact Option.noConfusion h2
  · intro hw
    rcases check_dependencies_warning_sound layers D _ hw with ⟨s, h, -⟩ | ⟨d', h, -, hnf⟩
    · exact Warning.noConfusion h
    · injection h with h
      subst h
      exact hnf hf

/-- Witness for the amended C2: eventBus absent from the layer map. -/
theorem foundation_absent_skipped_witness :
    (∀ v ∈ (check_dependencies [("A", 5)] [("A", ["eventBus"])]).1,
      v.dependency ≠ "eventBus") ∧
    Warning.unknownDependency "eventBus" ∉
      (check_dependencies [("A", 5)] [("A", ["eventBus"])]).2 :=
  foundation_absent_skipped [("A", 5)] [("A", ["eventBus"])] "eventBus"
    (by decide) (by decide)

/-- Claim C3: the exit code is 0 iff the violation sequence is empty, is 1
whenever it is nonempty, and is a function of the violation sequence
alone, so warnings never change it. -/
theorem exit_code_iff_no_violations (layers : LayerMap) (D : DepMap) :
    (exit_code layers D = 0 ↔ (check_dependencies layers D).1 = []) ∧
    ((check_dependencies layers D).1 ≠ [] → exit_code layers D = 1) ∧
    (∀ (layers₂ : LayerMap) (D₂ : DepMap),
      (check_dependencies layers D).1 = (check_dependencies layers₂ D₂).1 →
      exit_code layers D = exit_code layers₂ D₂) := by
  refine ⟨?_, ?_, ?_⟩
  · unfold exit_code derive_exit main_result
    constructor
    · intro h
      by_cases hz : (check_dependencies layers D).1.length = 0
      · exact List.length_eq_zero.mp hz
      · simp [hz] at h
    · intro h
      simp [h]
  · intro h
    have hz : (check_dependencies layers D).1.length ≠ 0 :=
      fun hz => h (List.length_eq_zero.mp hz)
    unfold exit_code derive_exit main_result
    simp [hz]
  · intro layers₂ D₂ h
    unfold exit_code derive_exit main_result
    rw [h]

/-- Witness for C3 on a model with one violation. -/
theorem exit_code_iff_no_violations_witness :
    exit_code [("A", 1), ("B", 2)] [("A", ["B"])] = 1 :=
  (exit_code_iff_no_violations [("A", 1), ("B", 2)] [("A", ["B"])]).2.1 (by decide)

/-- Claim C4: an edge to a non-foundation dependency missing from the layer
map yields exactly one unknown-dependency warning and no violation, and
the rest of the model is processed unchanged: dropping the edge leaves
the violation sequence identical, and the warning trace is the trace of
the surrounding model with the single warning inserted in place. -/
theorem unknown_dependency_warning (layers : LayerMap) (s d : String) (sL : Nat)
    (hs : layers.lookup s = some sL) (hd : layers.lookup d = none)
    (hnf : d ∉ foundationNodes) :
    checkDep layers s sL d = ([], [Warning.unknownDependency d]) ∧
    ∀ (D₁ D₂ : DepMap) (ds₁ ds₂ : List String),
      (check_dependencies layers (D₁ ++ (s, ds₁ ++ d :: ds₂) :: D₂)).1 =
        (check_dependencies layers (D₁ ++ (s, ds₁ ++ ds₂) :: D₂)).1 ∧
      (check_dependencies layers (D₁ ++ (s, ds₁ ++ d :: ds₂) :: D₂)).2 =
        (check_dependencies layers D₁).2 ++
          ((checkDeps layers s sL ds₁).2 ++
            Warning.unknownDependency d :: (checkDeps layers s sL ds₂).2) ++
          (check_dependencies layers D₂).2 := by
  have hc := checkDep_none_unknown layers s sL d hd hnf
  refine ⟨hc, ?_⟩
  intro D₁ D₂ ds₁ ds₂
  constructor
  · rw [check_dependencies_append, check_dependencies_append]
    simp only [check_dependencies_cons]
    rw [checkService_some layers s _ sL hs, checkService_some layers s _ sL hs]
    rw [checkDeps_append, checkDeps_append, checkDeps_cons, hc]
    simp
  · rw [check_dependencies_append]
    simp only [check_dependencies_cons]
    rw [checkService_some layers s _ sL hs]
    rw [checkDeps_append, checkDeps_cons, hc]
    simp

/-- Witness for C4: the unknown name Z produces one warning while the
upward edge of the same source is still reported. -/
theorem unknown_dependency_warning_witness :
    checkDep [("A", 3), ("B", 9)] "A" 3 "Z" = ([], [Warning.unknownDependency "Z"]) ∧
    ((check_dependencies [("A", 3), ("B", 9)] [("A", ["Z", "B"])]).1 =
        (check_dependencies [("A", 3), ("B", 9)] [("A", ["B"])]).1 ∧
      (check_dependencies [("A", 3), ("B", 9)] [("A", ["Z", "B"])]).2 =
        (check_dependencies [("A", 3), ("B", 9)] []).2 ++
          ((checkDeps [("A", 3), ("B", 9)] "A" 3 []).2 ++
            Warning.unknownDependency "Z" :: (checkDeps [("A", 3), ("B", 9)] "A" 3 ["B"]).2) ++
          (check_dependencies [("A", 3), ("B", 9)] []).2) :=
  ⟨(unknown_dependency_warning [("A", 3), ("B", 9)] "A" "Z" 3
      (by decide) (by decide) (by decide)).1,
   (unknown_dependency_warning [("A", 3), ("B", 9)] "A" "Z" 3
      (by decide) (by decide) (by decide)).2 [] [] [] ["B"]⟩

/-- Claim C5: a source absent from the layer map yields exactly one
unknown-source warning naming it, all its edges are skipped so it
contributes no violations, and the surrounding sources are processed
unchanged. -/
theorem unknown_source_skipped (layers : LayerMap) (s : String)
    (hs : layers.lookup s = none) :
    ∀ (ds : List String) (D₁ D₂ : DepMap),
      check_dependencies layers (D₁ ++ (s, ds) :: D₂) =
        ((check_dependencies layers D₁).1 ++ (check_dependencies layers D₂).1,
         (check_dependencies layers D₁).2 ++
           Warning.unknownSource s :: (check_dependencies layers D₂).2) := by
  intro ds D₁ D₂
  rw [check_dependencies_append]
  simp only [check_dependencies_cons]
  rw [checkService_none layers s ds hs]
  simp

/-- Witness for C5: the unregistered source A is skipped whole while B is
still processed. -/
theorem unknown_source_skipped_witness :
    check_dependencies [("B", 2)] [("A", ["B"]), ("B", [])] =
      ((check_dependencies [("B", 2)] []).1 ++
         (check_dependencies [("B", 2)] [("B", [])]).1,
       (check_dependencies [("B", 2)] []).2 ++
         Warning.unknownSource "A" :: (check_dependencies [("B", 2)] [("B", [])]).2) :=
  unknown_source_skipped [("B", 2)] "A" (by decide) ["B"] [] [("B", [])]

/-- Claim C6: the validator returns the full violation list and the full
warning trace together as a pair, each the concatenation of every
declared service's contribution, and the caller derives the exit status
from the length of the returned violation sequence. -/
theorem validate_returns_pair (layers : LayerMap) (D : DepMap) :
    check_dependencies layers D =
      ((D.map fun e => (checkService layers e.1 e.2).1).flatten,
       (D.map fun e => (checkService layers e.1 e.2).2).flatten) ∧
    exit_code layers D = derive_exit (check_dependencies layers D).1.length :=
  ⟨check_dependencies_eq_flatten layers D, rfl⟩

/-- Claim C7: the violation sequence is exactly the concatenation, in the
declaration order of the dependency table, of each source's
per-dependency results in their declared order — no deduplication,
re-sorting or truncation. -/
theorem violations_in_discovery_order (layers : LayerMap) :
    ∀ D : DepMap,
      (check_dependencies layers D).1 =
        (D.map fun e =>
          match layers.lookup e.1 with
          | none => []
          | some sL => (e.2.map fun d => (checkDep layers e.1 sL d).1).flatten).flatten
  | [] => rfl
  | (s, ds) :: rest => by
      rw [check_dependencies_cons]
      cases hs : layers.lookup s with
      | none =>
          rw [checkService_none layers s ds hs]
          simp [violations_in_discovery_order layers rest, hs]
      | some sL =>
          rw [checkService_some layers s ds sL hs, checkDeps_eq_flatten]
          simp [violations_in_discovery_order layers rest, hs]

/-- Claim C8 counterexample: a duplicated upward edge is reported twice, so
the output differs from that of the singly-declared model. -/
theorem duplicate_edges_not_collapsed :
    check_dependencies [("A", 1), ("B", 2)] [("A", ["B", "B"])] ≠
      check_dependencies [("A", 1), ("B", 2)] [("A", ["B"])] := by decide

/-- Claim C8 (amended): duplicate dependency edges are not collapsed — each
declared occurrence is classified independently, an n-fold declaration of
the same dependency contributing n copies of the single-occurrence
result, violations and warnings alike. -/
theorem duplicate_edges_independent (layers : LayerMap) (s : String) (sL : Nat) (d : String)
    (hs : layers.lookup s = some sL) :
    ∀ n : Nat,
      check_dependencies layers [(s, List.replicate n d)] =
        ((List.replicate n (checkDep layers s sL d).1).flatten,
         (List.replicate n (checkDep layers s sL d).2).flatten) := by
  have key : ∀ m : Nat, checkDeps layers s sL (List.replicate m d) =
      ((List.replicate m (checkDep layers s sL d).1).flatten,
       (List.replicate m (checkDep layers s sL d).2).flatten) := by
    intro m
    induction m with
    | zero => rfl
    | succ k ih => rw [List.replicate_succ, checkDeps_cons, ih]; simp [List.replicate_succ]
  intro n
  rw [check_dependencies_cons, checkService_some layers s (List.replicate n d) sL hs, key n]
  simp [check_dependencies]

/-- Witness for the amended C8: two declarations of the same upward edge
contribute the single-edge result twice. -/
theorem duplicate_edges_independent_witness :
    check_dependencies [("A", 1), ("B", 2)] [("A", ["B", "B"])] =
      ((List.replicate 2 (checkDep [("A", 1), ("B", 2)] "A" 1 "B").1).flatten,
       (List.replicate 2 (checkDep [("A", 1), ("B", 2)] "A" 1 "B").2).flatten) :=
  duplicate_edges_independent [("A", 1), ("B", 2)] "A" 1 "B" (by decide) 2

/-- Claim C9: the validator is deterministic — the violation sequence, the
warning trace (order included) and the exit code are fully determined by
the layer table and the dependency table, so two runs on the same input
agree. -/
theorem deterministic_runs (layers₁ layers₂ : LayerMap) (D₁ D₂ : DepMap)
    (hL : layers₁ = layers₂) (hD : D₁ = D₂) :
    (check_dependencies layers₁ D₁).1 = (check_dependencies layers₂ D₂).1 ∧
    (check_dependencies layers₁ D₁).2 = (check_dependencies layers₂ D₂).2 ∧
    exit_code layers₁ D₁ = exit_code layers₂ D₂ := by
  subst hL
  subst hD
  exact ⟨rfl, rfl, rfl⟩

/-- Witness for C9 on the hardcoded tables. -/
theorem deterministic_runs_witness :
    (check_dependencies SERVICE_LAYERS DEPENDENCIES).1 =
      (check_dependencies SERVICE_LAYERS DEPENDENCIES).1 ∧
    (check_dependencies SERVICE_LAYERS DEPENDENCIES).2 =
      (check_dependencies SERVICE_LAYERS DEPENDENCIES).2 ∧
    exit_code SERVICE_LAYERS DEPENDENCIES = exit_code SERVICE_LAYERS DEPENDENCIES :=
  deterministic_runs SERVICE_LAYERS SERVICE_LAYERS DEPENDENCIES DEPENDENCIES rfl rfl

/-- Claim C10: on the hardcoded SERVICE_LAYERS and DEPENDENCIES tables the
validator finds no violations and emits no warnings, and the process
exits with status 0. -/
theorem hardcoded_model_clean :
    check_dependencies SERVICE_LAYERS DEPENDENCIES = ([], []) ∧
    exit_code SERVICE_LAYERS DEPENDENCIES = 0 := by
  constructor
  · decide
  · decide

end CardScroller
